import Mathlib

/-!
Shallow embedding of src/worker.js (farm-telegram-bot, Cloudflare Worker).

The repository file contains two variants of the worker separated by a
document marker: the first variant (lines 1-536) implements the excursion
flow with input validation at the ex_people / ex_contact steps and an admin
confirm/cancel protocol without capacity counters; the second variant
(lines 537-1316) adds the New Year ("ny") events with per-event capacity
counters, but its excursion step handlers accept any input verbatim.

Pure data (JS objects stored in KV) is modelled by Lean structures; the KV
namespaces BOOKINGS and EVENTS are modelled as association lists inside a
single Store value; each handler is modelled as a function from the store
and its inputs to the chronologically ordered list of KV writes it performs
together with the list of outbound Telegram calls it makes.  JS timestamps
are Nat, JS numbers that can be negative (people counts obtained from
parseInt) are Int, and JS truthiness of strings/options is modelled
explicitly ("" and null are falsy).
-/

/-- Character class of the JS regex \s (whitespace), as used by trim,
the phone regex and parseInt in worker.js. -/
def jsWhitespaceChar (c : Char) : Bool :=
  c = ' ' || c = '\t' || c = '\n' || c = '\r' ||
  c.toNat = 0x0b || c.toNat = 0x0c ||
  c.toNat = 0xa0 || c.toNat = 0x1680 ||
  (0x2000 ≤ c.toNat && c.toNat ≤ 0x200a) ||
  c.toNat = 0x2028 || c.toNat = 0x2029 || c.toNat = 0x202f ||
  c.toNat = 0x205f || c.toNat = 0x3000 || c.toNat = 0xfeff

/-- Model of JS String.prototype.trim (worker.js line 461: (text || "").trim()). -/
def jsTrim (s : String) : String :=
  String.mk (((s.data.dropWhile jsWhitespaceChar).reverse.dropWhile jsWhitespaceChar).reverse)

/-- Digits of a leading decimal run, interpreted as a Nat. -/
def decimalValue (l : List Char) : Nat :=
  l.foldl (fun a c => a * 10 + (c.toNat - 48)) 0

/-- Model of the JS expression parseInt(s, 10) || 0 (worker.js lines 485, 831,
771, 1179, 1271): skip leading whitespace, optional sign, read the leading
decimal digits; NaN (no digits) collapses to 0 through the || 0. -/
def jsParseIntOr0 (s : String) : Int :=
  match s.data.dropWhile jsWhitespaceChar with
  | '+' :: t =>
      let d := t.takeWhile Char.isDigit
      if d.isEmpty then 0 else (decimalValue d : Int)
  | '-' :: t =>
      let d := t.takeWhile Char.isDigit
      if d.isEmpty then 0 else -(decimalValue d : Int)
  | t =>
      let d := t.takeWhile Char.isDigit
      if d.isEmpty then 0 else (decimalValue d : Int)

/-- Truthiness of a nullable JS string: null and "" are falsy. -/
def optTruthy : Option String → Bool
  | none => false
  | some s => s ≠ ""

/-- Value of a nullable JS string once known truthy (interpolation into text). -/
def optStr : Option String → String
  | none => ""
  | some s => s

/-- Truthiness of a nullable JS number: undefined/null and 0 are falsy
(used for msg?.chat?.id and msg?.message_id in handleAdminBookingAction). -/
def optNatTruthy : Option Nat → Bool
  | none => false
  | some n => n ≠ 0

/-- CapacityCounter record persisted under event:{id} (worker.js line 653:
lazily created as { capacity: 40, booked: 0 }). -/
structure EventState where
  capacity : Int
  booked : Int
deriving DecidableEq, Repr

/-- Accumulated answer fields copied into a booking at creation
(worker.js lines 1191-1198 and 1277-1283); absent fields are none,
and the truthy checks of the admin summary text treat "" like absent. -/
structure BookingData where
  name : Option String := none
  date : Option String := none
  time : Option String := none
  people : Option String := none
  contact : Option String := none
  nyEventTitle : Option String := none
  username : Option String := none
deriving DecidableEq, Repr

/-- Booking record persisted under booking:{id} (worker.js lines 686-696). -/
structure Booking where
  id : String
  type : String
  chatId : Nat
  status : String
  nyEventId : Option String
  createdAt : Nat
  people : Int
  data : BookingData
deriving DecidableEq, Repr

/-- Conversation session persisted under user:{chatId}; absent string fields
are "", absent expiresAt is 0 (JS undefined is falsy like 0). -/
structure Session where
  step : String := ""
  name : String := ""
  date : String := ""
  time : String := ""
  people : String := ""
  contact : String := ""
  nyEventId : String := ""
  nyEventTitle : String := ""
  nyEventDate : String := ""
  expiresAt : Nat := 0
deriving DecidableEq, Repr

/-- The empty session ({} in worker.js). -/
def emptySession : Session := {}

/-- Lookup in an association list (model of KV get within one namespace). -/
def alookup {α : Type} (l : List (String × α)) (k : String) : Option α :=
  match l with
  | [] => none
  | (k1, v) :: t => if k1 = k then some v else alookup t k

/-- Insert-or-replace in an association list (model of KV put). -/
def ainsert {α : Type} (l : List (String × α)) (k : String) (v : α) :
    List (String × α) :=
  match l with
  | [] => [(k, v)]
  | (k1, v1) :: t => if k1 = k then (k, v) :: t else (k1, v1) :: ainsert t k v

/-- Combined persistent store: the BOOKINGS and EVENTS KV namespaces. -/
structure Store where
  bookings : List (String × Booking)
  events : List (String × EventState)
deriving DecidableEq, Repr

/-- A single KV write performed by a handler, in chronological order. -/
inductive StoreWrite where
  | putEvent (key : String) (state : EventState)
  | putBooking (key : String) (booking : Booking)
deriving DecidableEq, Repr

/-- Outbound Telegram calls made by a handler, in chronological order. -/
inductive Effect where
  | answerCallback (text : String)
  | sendMessage (chatId : Nat) (text : String)
  | editMessage (chatId : Nat) (messageId : Nat) (text : String)
deriving DecidableEq, Repr

/-- Apply one KV write to the store. -/
def applyWrite (s : Store) (w : StoreWrite) : Store :=
  match w with
  | .putEvent k st => { s with events := ainsert s.events k st }
  | .putBooking k b => { s with bookings := ainsert s.bookings k b }

/-- Apply a chronological list of KV writes to the store. -/
def applyWrites (s : Store) (ws : List StoreWrite) : Store :=
  ws.foldl applyWrite s

/-- Static New Year event catalog entry (worker.js lines 633-641). -/
structure WinterEvent where
  id : String
  label : String
  date : String
  title : String
deriving DecidableEq, Repr

/-- The winterEvents catalog (worker.js lines 633-641). -/
def winterEvents : List WinterEvent :=
  [ ⟨"ny-03", "03.01 — Ёлка у Снежной королевы", "03.01", "Ёлка у Снежной королевы"⟩,
    ⟨"ny-04", "04.01 — Дегустация «Мир холодца и студня» (Коллагеновый день)", "04.01",
      "Дегустация «Мир холодца и студня» (Коллагеновый день)"⟩,
    ⟨"ny-05", "05.01 — Сырные традиции народов мира: Индия, Италия, Франция", "05.01",
      "Сырные традиции народов мира: Индия, Италия, Франция"⟩,
    ⟨"ny-06", "06.01 — Детская программа «Коза-Дереза и её африканские родственники»", "06.01",
      "Детская программа «Коза-Дереза и её африканские родственники»"⟩,
    ⟨"ny-07", "07.01 — «От носа до хвоста»: дегустация сыров и стейки", "07.01",
      "«От носа до хвоста»: дегустация сыров и стейки"⟩,
    ⟨"ny-08", "08.01 — Дегустация «Пицца и каннеллони»", "08.01",
      "Дегустация «Пицца и каннеллони»"⟩,
    ⟨"ny-09", "09.01 — Русский день. «Зимние традиции и угощения»", "09.01",
      "Русский день. «Зимние традиции и угощения»"⟩ ]

/-- KV key of a CapacityCounter (worker.js line 645). -/
def eventKey (eventId : String) : String := "event:" ++ eventId

/-- KV key of a booking record (worker.js lines 664, 671). -/
def bookingKey (bookingId : String) : String := "booking:" ++ bookingId

/-- Model of getEventState (worker.js lines 644-657): read the counter for
eventId; when absent, create it as { capacity: 40, booked: 0 } and persist
that default immediately.  Returns the lazy-creation writes (empty or a
single put), the key, and the state the caller goes on to use. -/
def getEventState (s : Store) (eventId : String) :
    List StoreWrite × String × EventState :=
  let key := eventKey eventId
  match alookup s.events key with
  | some st => ([], key, st)
  | none => ([StoreWrite.putEvent key ⟨40, 0⟩], key, ⟨40, 0⟩)

/-- Model of saveEventState (worker.js lines 659-661). -/
def saveEventState (key : String) (st : EventState) : List StoreWrite :=
  [StoreWrite.putEvent key st]

/-- Model of getBooking (worker.js lines 663-667). -/
def getBookingS (s : Store) (bookingId : String) : Option Booking :=
  alookup s.bookings (bookingKey bookingId)

/-- Model of saveBooking (worker.js lines 669-672): the write is skipped
when booking.id is falsy. -/
def saveBookingW (b : Booking) : List StoreWrite :=
  if b.id = "" then [] else [StoreWrite.putBooking (bookingKey b.id) b]

/-- Payload handed to createBooking (worker.js lines 1186-1199, 1273-1284).
The chatId is the requester chat; nyEventId is present only for ny_event
bookings; people is the parseInt result computed by the flow handler. -/
structure BookingInput where
  type : String
  chatId : Nat
  nyEventId : Option String := none
  people : Int
  data : BookingData
deriving DecidableEq, Repr

/-- Model of generateBookingId (worker.js lines 675-683): the id is
bk-{eventPart}-{today}-{ts} where eventPart is data.data.date, else
data.nyEventDate, else "na" (JS || with "" falsy), today is the UTC date
string and ts is Date.now().  Nothing else about the creation event enters
the id. -/
def generateBookingId (dataDate nyEventDate : Option String) (today : String)
    (ts : Nat) : String :=
  let eventPart :=
    if optTruthy dataDate then optStr dataDate
    else if optTruthy nyEventDate then optStr nyEventDate
    else "na"
  "bk-" ++ eventPart ++ "-" ++ today ++ "-" ++ toString ts

/-- Model of createBooking (worker.js lines 685-699): build the record with
status "new" and persist it.  The nyEventDate argument of generateBookingId
is none here because the excursion/ny payloads never set a top-level
nyEventDate field (the ny flow instead stores the date in data.date).
today and ts stand for new Date().toISOString().slice(0,10) and Date.now(). -/
def createBooking (s : Store) (input : BookingInput) (today : String)
    (ts : Nat) : Store × Booking :=
  let id := generateBookingId input.data.date none today ts
  let booking : Booking :=
    { id := id
      type := if input.type = "" then "unknown" else input.type
      chatId := input.chatId
      status := "new"
      nyEventId := if optTruthy input.nyEventId then input.nyEventId else none
      createdAt := ts
      people := input.people
      data := input.data }
  (applyWrites s (saveBookingW booking), booking)

/-- Event id that makes a booking capacity-bound for the confirm transition:
worker.js line 829 guards on booking.type === "ny_event" && booking.nyEventId
(truthy). -/
def capacityEventId (b : Booking) : Option String :=
  match b.nyEventId with
  | some e => if b.type = "ny_event" ∧ e ≠ "" then some e else none
  | none => none

/-- Answer-summary lines appended to the admin message (worker.js
lines 855-861 and 898-904): one line per truthy data field. -/
def bookingDataLines (d : BookingData) : String :=
  (if optTruthy d.date then "Дата: " ++ optStr d.date ++ "\n" else "") ++
  (if optTruthy d.time then "Время: " ++ optStr d.time ++ "\n" else "") ++
  (if optTruthy d.name then "Имя: " ++ optStr d.name ++ "\n" else "") ++
  (if optTruthy d.people then "Гостей: " ++ optStr d.people ++ "\n" else "") ++
  (if optTruthy d.contact then "Контакт: " ++ optStr d.contact ++ "\n" else "")

/-- Event line of the admin message for ny_event bookings (worker.js
lines 851-854 and 894-897). -/
def bookingEventLine (b : Booking) : String :=
  if b.type = "ny_event" ∧ optTruthy b.nyEventId then
    match winterEvents.find? (fun e => e.id = optStr b.nyEventId) with
    | some ev => "Мероприятие: " ++ ev.title ++ " (" ++ ev.date ++ ")\n"
    | none => ""
  else ""

/-- Notification sent to the requester after confirm (worker.js
lines 868-877). -/
def confirmUserText (b : Booking) : String :=
  let base := "Ваша заявка " ++ b.id ++ " подтверждена."
  if b.type = "ny_event" ∧ optTruthy b.nyEventId then
    match winterEvents.find? (fun e => e.id = optStr b.nyEventId) with
    | some ev => base ++ "\nМероприятие: " ++ ev.title ++ " (" ++ ev.date ++ ")."
    | none => base
  else
    base ++
    (if optTruthy b.data.date then "\nДата: " ++ optStr b.data.date else "") ++
    (if optTruthy b.data.time then "\nВремя: " ++ optStr b.data.time else "")

/-- Effects shared by the tails of the confirm/cancel branches (worker.js
lines 864-880 and 907-915): edit the admin message when the callback carried
one, notify the requester when booking.chatId is truthy, then answer the
callback query. -/
def adminTailEffects (chatId messageId : Option Nat) (adminText : String)
    (b : Booking) (userText ackText : String) : List Effect :=
  (if optNatTruthy chatId ∧ optNatTruthy messageId then
    [Effect.editMessage (chatId.getD 0) (messageId.getD 0) adminText]
  else []) ++
  (if b.chatId ≠ 0 then [Effect.sendMessage b.chatId userText] else []) ++
  [Effect.answerCallback ackText]

/-- Core of handleAdminBookingAction (worker.js lines 806-920) after the
callback data has been split into action and bookingId.  chatId/messageId
are msg?.chat?.id and msg?.message_id.  Returns the chronological KV writes
and outbound calls.  The parseInt(booking.people || "0", 10) || 0 of line
831 is the identity on the stored integer people field. -/
def adminBookingAction (s : Store) (action bookingId : String)
    (chatId messageId : Option Nat) : List StoreWrite × List Effect :=
  match getBookingS s bookingId with
  | none => ([], [Effect.answerCallback "Заявка не найдена."])
  | some booking =>
    if action = "confirm" then
      if booking.status = "confirmed" then
        ([], [Effect.answerCallback "Заявка уже подтверждена."])
      else
        match capacityEventId booking with
        | some e =>
          let g := getEventState s e
          let key := g.2.1
          let st := g.2.2
          let people := booking.people
          if people ≤ 0 then
            (g.1, [Effect.answerCallback "Некорректное количество гостей."])
          else if st.capacity < st.booked + people then
            let free := st.capacity - st.booked
            let freeShown := if free < 0 then 0 else free
            (g.1, [Effect.answerCallback
              ("Недостаточно мест. Свободно: " ++ toString freeShown ++ ".")])
          else
            let confirmed := { booking with status := "confirmed" }
            let adminText := "Заявка " ++ booking.id ++ " подтверждена.\n\n" ++
              bookingEventLine confirmed ++ bookingDataLines booking.data ++
              "\nСтатус: ✅ подтверждена"
            (g.1 ++ saveEventState key { st with booked := st.booked + people } ++
              saveBookingW confirmed,
             adminTailEffects chatId messageId adminText confirmed
               (confirmUserText confirmed) "Заявка подтверждена.")
        | none =>
          let confirmed := { booking with status := "confirmed" }
          let adminText := "Заявка " ++ booking.id ++ " подтверждена.\n\n" ++
            bookingEventLine confirmed ++ bookingDataLines booking.data ++
            "\nСтатус: ✅ подтверждена"
          (saveBookingW confirmed,
           adminTailEffects chatId messageId adminText confirmed
             (confirmUserText confirmed) "Заявка подтверждена.")
    else if action = "cancel" then
      if booking.status = "cancelled" then
        ([], [Effect.answerCallback "Заявка уже отклонена."])
      else
        let cancelled := { booking with status := "cancelled" }
        let adminText := "Заявка " ++ booking.id ++ " отклонена.\n\n" ++
          bookingEventLine cancelled ++ bookingDataLines booking.data ++
          "\nСтатус: ❌ отклонена"
        (saveBookingW cancelled,
         adminTailEffects chatId messageId adminText cancelled
           ("Ваша заявка " ++ booking.id ++ " отклонена. Если это ошибка — свяжитесь с нами.")
           "Заявка отклонена.")
    else
      ([], [Effect.answerCallback "Неизвестное действие."])

/-- String(x) of a possibly-undefined JS value already held as a string. -/
def jsStringOfOpt : Option String → String
  | some f => f
  | none => "undefined"

/-- Model of isAdminUserId (worker.js lines 583-586): false when
env.ADMIN_USER_ID is unset/empty (falsy), otherwise string equality of
String(userId) with String(env.ADMIN_USER_ID). -/
def isAdminUserId (adminUserId : Option String) (userId : String) : Bool :=
  match adminUserId with
  | none => false
  | some a => if a = "" then false else userId = a

/-- Model of sendEventsSummaryMessage (worker.js lines 733-742): one line per
catalog event with booked/capacity and an open/closed label; getEventState
may lazily create missing counters (each event has a distinct key, so the
reads are independent of the accumulated writes). -/
def sendEventsSummaryMessage (s : Store) (chatId : Nat) :
    List StoreWrite × List Effect :=
  let folded := winterEvents.foldl
    (fun (acc : List StoreWrite × List String) ev =>
      let g := getEventState s ev.id
      let st := g.2.2
      let free := st.capacity - st.booked
      let status := if free ≤ 0 then "приём закрыт" else "свободно " ++ toString free
      let line := ev.date ++ " — " ++ ev.title ++ ": " ++ toString st.booked ++
        "/" ++ toString st.capacity ++ " (" ++ status ++ ")"
      (acc.1 ++ g.1, acc.2 ++ [line]))
    ([], [])
  (folded.1,
   [Effect.sendMessage chatId
     ("Сводка по новогодним мероприятиям:\n\n" ++ String.intercalate "\n" folded.2)])

/-- Roster line for one booking in the event detail message (worker.js
lines 771-774). -/
def bookingRosterLine (b : Booking) : String :=
  let people := b.people
  let name := match b.data.name with
    | some n => if n ≠ "" then n else "без имени"
    | none => "без имени"
  let status := if b.status = "" then "new" else b.status
  "- " ++ b.id ++ " — " ++ status ++ " — " ++ name ++ ", " ++ toString people ++
    " гость(я)\n"

/-- Model of sendEventDetailMessage (worker.js lines 744-786): header with
capacity figures plus a roster of every stored ny_event booking for this
event, iterated in stored list order (KV list over the booking: namespace). -/
def sendEventDetailMessage (s : Store) (chatId : Nat) (eventId : String) :
    List StoreWrite × List Effect :=
  match winterEvents.find? (fun e => e.id = eventId) with
  | none => ([], [Effect.sendMessage chatId "Мероприятие не найдено."])
  | some ev =>
    let g := getEventState s ev.id
    let st := g.2.2
    let free := st.capacity - st.booked
    let bookingsText := s.bookings.foldl
      (fun acc kb =>
        if kb.2.type = "ny_event" ∧ kb.2.nyEventId = some eventId then
          acc ++ bookingRosterLine kb.2
        else acc)
      ""
    let header := "Мероприятие: " ++ ev.title ++ " (" ++ ev.date ++ ")\n" ++
      "Всего мест: " ++ toString st.capacity ++ "\n" ++
      "Занято (подтверждено): " ++ toString st.booked ++ "\n" ++
      "Свободно: " ++ toString free ++ "\n\n" ++ "Заявки:\n"
    let text := if bookingsText = "" then header ++ "пока нет заявок." else header ++ bookingsText
    (g.1, [Effect.sendMessage chatId text])

/-- Model of handleEventsSummaryCallback (worker.js lines 789-804):
events:all sends the summary, events:{id} the detail, each acknowledged. -/
def handleEventsSummaryCallback (s : Store) (cbData : String) (msgChatId : Nat) :
    List StoreWrite × List Effect :=
  let suffix := ((cbData.splitOn ":").getD 1 "undefined")
  if suffix = "all" then
    let r := sendEventsSummaryMessage s msgChatId
    (r.1, r.2 ++ [Effect.answerCallback "Сводка отправлена сообщением."])
  else
    let r := sendEventDetailMessage s msgChatId suffix
    (r.1, r.2 ++ [Effect.answerCallback "Детали мероприятия отправлены."])

/-- Split of the callback data inside handleAdminBookingAction (worker.js
lines 813-815): parts[0] is the action, parts[1] the booking id (JS yields
the string "undefined" in the composed KV key when parts[1] is absent). -/
def adminBookingActionData (s : Store) (cbData : String)
    (chatId messageId : Option Nat) : List StoreWrite × List Effect :=
  let parts := cbData.splitOn ":"
  adminBookingAction s (parts.getD 0 "") (parts.getD 1 "undefined") chatId messageId

/-- Model of the callback_query dispatch (worker.js lines 922-945): the
admin gate runs first; non-admin identities are answered with a
permission-denied notice and nothing else happens.  fromId is
String(callback_query.from?.id) ("undefined" when absent); msgChatId
defaults like the unchecked callbackQuery.message.chat.id access. -/
def handleCallbackQuery (s : Store) (adminUserId : Option String)
    (fromId : Option String) (cbData : String)
    (msgChatId msgMessageId : Option Nat) : List StoreWrite × List Effect :=
  if isAdminUserId adminUserId (jsStringOfOpt fromId) = false then
    ([], [Effect.answerCallback "Недостаточно прав."])
  else if cbData.startsWith "events:" then
    handleEventsSummaryCallback s cbData (msgChatId.getD 0)
  else if cbData.startsWith "confirm:" || cbData.startsWith "cancel:" then
    adminBookingActionData s cbData msgChatId msgMessageId
  else
    ([], [Effect.answerCallback "Неизвестная команда."])

/-- Session expiry check performed right after the KV read and before any
step logic (worker.js lines 965-968): a truthy expiresAt strictly in the
past deletes the stored session and replaces it by the empty one.  Returns
the session the step logic sees and whether the delete happened. -/
def sessionExpiryCheck (session : Session) (now : Nat) : Session × Bool :=
  if session.expiresAt ≠ 0 ∧ session.expiresAt < now then (emptySession, true)
  else (session, false)

/-- Model of setState (worker.js lines 970-974): every session write
refreshes expiresAt to now + 600000 ms (10 minutes). -/
def setStateS (newState : Session) (now : Nat) : Session :=
  { newState with expiresAt := now + 600000 }

/-- Character class [a-zA-Z0-9_] of the Telegram-handle regex
(worker.js line 465). -/
def isWordChar (c : Char) : Bool :=
  ('a' ≤ c && c ≤ 'z') || ('A' ≤ c && c ≤ 'Z') || ('0' ≤ c && c ≤ '9') || c = '_'

/-- Character class [0-9+\s()\-] of the phone regex (worker.js line 468). -/
def isPhoneChar (c : Char) : Bool :=
  c.isDigit || c = '+' || jsWhitespaceChar c || c = '(' || c = ')' || c = '-'

/-- Model of the test /^@[a-zA-Z0-9_]{4,32}$/ (worker.js line 465). -/
def isValidTelegram (contact : String) : Bool :=
  match contact.data with
  | c :: rest => c = '@' && 4 ≤ rest.length && rest.length ≤ 32 && rest.all isWordChar
  | [] => false

/-- Model of the test /^[0-9+\s()\-]+$/ (worker.js line 468). -/
def isPhoneLike (contact : String) : Bool :=
  !contact.data.isEmpty && contact.data.all isPhoneChar

/-- Model of contact.replace(/\D/g, "") (worker.js line 469). -/
def digitsOnly (contact : String) : List Char :=
  contact.data.filter Char.isDigit

/-- Model of isValidPhone (worker.js line 470): phone-like and 10-15 digits. -/
def isValidPhone (contact : String) : Bool :=
  isPhoneLike contact && 10 ≤ (digitsOnly contact).length &&
    (digitsOnly contact).length ≤ 15

/-- Button labels accepted at the first variant's ex_people step
(worker.js line 439). -/
def exPeopleAllowed : List String :=
  ["1", "2", "3", "4", "5", "6", "6–10", "более 11"]

/-- First-variant ex_people handler (worker.js lines 437-458): only the
button labels are accepted; "6–10" is stored as "6-10" and "более 11" as
"11+"; rejection re-prompts without touching the session (no setState).
Returns the session after the step and whether the input was accepted. -/
def exPeopleV1 (session : Session) (text : String) (now : Nat) :
    Session × Bool :=
  if exPeopleAllowed.contains text then
    let people := if text = "6–10" then "6-10"
      else if text = "более 11" then "11+" else text
    (setStateS { session with people := people, step := "ex_contact" } now, true)
  else
    (session, false)

/-- Second-variant ex_people handler (worker.js lines 1260-1266): any text is
stored verbatim and the step advances unconditionally. -/
def exPeopleV2 (session : Session) (text : String) (now : Nat) :
    Session × Bool :=
  (setStateS { session with people := text, step := "ex_contact" } now, true)

/-- Booking payload built at the end of the excursion flow (worker.js
lines 487-498 and 1273-1284) from the accumulated session answers; the
session string defaults "" stand for JS undefined and are equally falsy. -/
def excursionBookingInput (s1 : Session) (chatId : Nat) : BookingInput :=
  { type := "excursion"
    chatId := chatId
    nyEventId := none
    people := jsParseIntOr0 (if s1.people = "" then "0" else s1.people)
    data := { name := some s1.name, date := some s1.date, time := some s1.time,
              people := some s1.people, contact := some s1.contact } }

/-- First-variant ex_contact handler (worker.js lines 460-524): trim the
text; if it is neither a valid handle nor a valid phone, re-prompt and leave
the session untouched (none); otherwise store the contact, emit the booking
payload handed to createBooking, and clear the session (flow complete). -/
def exContactV1 (session : Session) (chatId : Nat) (text : String) :
    Session × Option BookingInput :=
  let contact := jsTrim text
  if !(isValidTelegram contact || isValidPhone contact) then
    (session, none)
  else
    let s1 := { session with contact := contact }
    (emptySession, some (excursionBookingInput s1 chatId))

/-- Second-variant ex_contact handler (worker.js lines 1268-1310): the raw
text is stored as the contact with no validation and the booking payload is
always emitted. -/
def exContactV2 (session : Session) (chatId : Nat) (text : String) :
    Session × Option BookingInput :=
  let s1 := { session with contact := text }
  (emptySession, some (excursionBookingInput s1 chatId))

/-- Handle pattern as the specification words it: a leading @ followed by
4-32 alphanumeric/underscore characters. -/
def specIsHandle (s : String) : Bool :=
  s.data.take 1 = ['@'] && 4 ≤ (s.data.drop 1).length &&
    (s.data.drop 1).length ≤ 32 && (s.data.drop 1).all isWordChar

/-- Phone character class as the specification words it: digits, plus sign,
whitespace separators, parentheses, hyphens. -/
def specPhoneChar (c : Char) : Bool :=
  c.isDigit || c = '+' || jsWhitespaceChar c || c = '(' || c = ')' || c = '-'

/-- Phone pattern as the specification words it: nonempty, only phone
characters, and a digit-only length between 10 and 15 inclusive. -/
def specIsPhone (s : String) : Bool :=
  !(s = "") && s.data.all specPhoneChar && 10 ≤ s.data.countP Char.isDigit &&
    s.data.countP Char.isDigit ≤ 15

/-- One operator confirm/cancel callback in a sequence of admin actions. -/
structure AdminAct where
  action : String
  bookingId : String
  chatId : Option Nat := none
  messageId : Option Nat := none
deriving DecidableEq, Repr

/-- Run a finite sequence of admin booking actions against the store, each
action seeing the store left by the previous one. -/
def runAdminActions (s : Store) (acts : List AdminAct) : Store :=
  acts.foldl
    (fun st a =>
      applyWrites st (adminBookingAction st a.action a.bookingId a.chatId a.messageId).1)
    s

/-- CapacityCounter invariant over every counter present in the store. -/
def countersOK (s : Store) : Prop :=
  ∀ p ∈ s.events, 0 ≤ p.2.booked ∧ p.2.booked ≤ p.2.capacity

/-- A successful association-list lookup exhibits a member of the list. -/
theorem alookup_mem {α : Type} (l : List (String × α)) (k : String) (v : α)
    (h : alookup l k = some v) : (k, v) ∈ l := by
  induction l with
  | nil => simp [alookup] at h
  | cons p t ih =>
    rcases p with ⟨k1, v1⟩
    by_cases hk : k1 = k
    · subst hk
      simp [alookup] at h
      subst h
      exact List.mem_cons_self _ _
    · simp [alookup, hk] at h
      exact List.mem_cons_of_mem _ (ih h)

/-- Every member of an insert-or-replace result is the inserted pair or an
original member. -/
theorem mem_ainsert {α : Type} (p : String × α) (l : List (String × α))
    (k : String) (v : α) (h : p ∈ ainsert l k v) : p = (k, v) ∨ p ∈ l := by
  induction l with
  | nil => simpa [ainsert] using h
  | cons q t ih =>
    rcases q with ⟨k1, v1⟩
    by_cases hk : k1 = k
    · subst hk
      simp [ainsert] at h
      rcases h with h | h
      · exact Or.inl h
      · exact Or.inr (List.mem_cons_of_mem _ h)
    · simp [ainsert, hk] at h
      rcases h with h | h
      · exact Or.inr (by simp [h])
      · rcases ih h with h1 | h1
        · exact Or.inl h1
        · exact Or.inr (List.mem_cons_of_mem _ h1)

/-- Lookup of the freshly inserted key. -/
theorem alookup_ainsert_self {α : Type} (l : List (String × α)) (k : String)
    (v : α) : alookup (ainsert l k v) k = some v := by
  induction l with
  | nil => simp [ainsert, alookup]
  | cons q t ih =>
    rcases q with ⟨k1, v1⟩
    by_cases hk : k1 = k
    · subst hk
      simp [ainsert, alookup]
    · simp [ainsert, alookup, hk, ih]

/-- Lookup of a different key is unchanged by insert-or-replace. -/
theorem alookup_ainsert_ne {α : Type} (l : List (String × α)) (k k1 : String)
    (v : α) (h : k1 ≠ k) : alookup (ainsert l k v) k1 = alookup l k1 := by
  induction l with
  | nil => simp [ainsert, alookup, Ne.symm h]
  | cons q t ih =>
    rcases q with ⟨k2, v1⟩
    by_cases hk : k2 = k
    · subst hk
      simp [ainsert, alookup, Ne.symm h]
    · simp [ainsert, alookup, hk, ih]

/-- Booking writes leave the events namespace untouched. -/
theorem events_applyWrite_putBooking (s : Store) (k : String) (b : Booking) :
    (applyWrite s (StoreWrite.putBooking k b)).events = s.events := rfl

/-- The counter invariant survives one KV write whenever an event write
satisfies the bounds. -/
theorem countersOK_applyWrite (s : Store) (w : StoreWrite) (h : countersOK s)
    (hw : ∀ k st, w = StoreWrite.putEvent k st →
      0 ≤ st.booked ∧ st.booked ≤ st.capacity) :
    countersOK (applyWrite s w) := by
  cases w with
  | putEvent k st =>
    intro p hp
    rcases mem_ainsert p s.events k st hp with h1 | h1
    · subst h1
      exact hw k st rfl
    · exact h p h1
  | putBooking k b =>
    intro p hp
    exact h p hp

/-- The counter invariant survives a write list whose event writes all
satisfy the bounds. -/
theorem countersOK_applyWrites (s : Store) (ws : List StoreWrite)
    (h : countersOK s)
    (hw : ∀ k st, StoreWrite.putEvent k st ∈ ws →
      0 ≤ st.booked ∧ st.booked ≤ st.capacity) :
    countersOK (applyWrites s ws) := by
  induction ws generalizing s with
  | nil => exact h
  | cons w t ih =>
    have hs : countersOK (applyWrite s w) :=
      countersOK_applyWrite s w h (fun k st he => hw k st (by simp [he]))
    exact ih (applyWrite s w) hs (fun k st hm => hw k st (by simp [hm]))

/-- Every event write of one admin booking action satisfies the counter
bounds, provided every counter already in the store does. -/
theorem adminAction_event_writes_bounded (s : Store) (a bid : String)
    (ch mi : Option Nat) (h : countersOK s) :
    ∀ k st, StoreWrite.putEvent k st ∈ (adminBookingAction s a bid ch mi).1 →
      0 ≤ st.booked ∧ st.booked ≤ st.capacity := by
  intro k st hm
  unfold adminBookingAction at hm
  rcases hB : getBookingS s bid with _ | b <;> simp only [hB] at hm
  · simp at hm
  · by_cases ha : a = "confirm"
    · rw [if_pos ha] at hm
      by_cases hs : b.status = "confirmed"
      · rw [if_pos hs] at hm
        simp at hm
      · rw [if_neg hs] at hm
        rcases hE : capacityEventId b with _ | e <;> simp only [hE] at hm
        · -- unconstrained booking: only a booking write
          simp only [saveBookingW] at hm
          by_cases hid : b.id = ""
          · rw [if_pos hid] at hm
            simp at hm
          · rw [if_neg hid] at hm
            simp at hm
        · rcases hG : alookup s.events (eventKey e) with _ | st0 <;>
            simp only [getEventState, hG] at hm
          · -- counter lazily created with capacity 40, booked 0
            by_cases hp : b.people ≤ 0
            · rw [if_pos hp] at hm
              simp at hm
              rcases hm with ⟨rfl, rfl⟩
              exact ⟨by decide, by decide⟩
            · rw [if_neg hp] at hm
              by_cases hcap : (40 : Int) < 0 + b.people
              · rw [if_pos hcap] at hm
                simp at hm
                rcases hm with ⟨rfl, rfl⟩
                exact ⟨by decide, by decide⟩
              · rw [if_neg hcap] at hm
                simp only [saveEventState, saveBookingW] at hm
                by_cases hid : b.id = ""
                · rw [if_pos hid] at hm
                  simp at hm
                  rcases hm with ⟨rfl, rfl⟩ | ⟨rfl, rfl⟩
                  · exact ⟨by decide, by decide⟩
                  · refine ⟨?_, ?_⟩ <;> simp <;> omega
                · rw [if_neg hid] at hm
                  simp at hm
                  rcases hm with ⟨rfl, rfl⟩ | ⟨rfl, rfl⟩
                  · exact ⟨by decide, by decide⟩
                  · refine ⟨?_, ?_⟩ <;> simp <;> omega
          · -- counter already present; its bounds come from the invariant
            obtain ⟨h0, h1⟩ := h (eventKey e, st0) (alookup_mem _ _ _ hG)
            simp only [] at h0 h1
            by_cases hp : b.people ≤ 0
            · rw [if_pos hp] at hm
              simp at hm
            · rw [if_neg hp] at hm
              by_cases hcap : st0.capacity < st0.booked + b.people
              · rw [if_pos hcap] at hm
                simp at hm
              · rw [if_neg hcap] at hm
                simp only [saveEventState, saveBookingW] at hm
                by_cases hid : b.id = ""
                · rw [if_pos hid] at hm
                  simp at hm
                  rcases hm with ⟨rfl, rfl⟩
                  refine ⟨?_, ?_⟩ <;> (try simp) <;> omega
                · rw [if_neg hid] at hm
                  simp at hm
                  rcases hm with ⟨rfl, rfl⟩
                  refine ⟨?_, ?_⟩ <;> (try simp) <;> omega
    · rw [if_neg ha] at hm
      by_cases hc : a = "cancel"
      · rw [if_pos hc] at hm
        by_cases hs : b.status = "cancelled"
        · rw [if_pos hs] at hm
          simp at hm
        · rw [if_neg hs] at hm
          simp only [saveBookingW] at hm
          by_cases hid : b.id = ""
          · rw [if_pos hid] at hm
            simp at hm
          · rw [if_neg hid] at hm
            simp at hm
      · rw [if_neg hc] at hm
        simp at hm

/-- One admin booking action preserves the counter invariant. -/
theorem adminAction_preserves_countersOK (s : Store) (a bid : String)
    (ch mi : Option Nat) (h : countersOK s) :
    countersOK (applyWrites s (adminBookingAction s a bid ch mi).1) :=
  countersOK_applyWrites s _ h (adminAction_event_writes_bounded s a bid ch mi h)

/-- C1: starting from a store whose every CapacityCounter has booked = 0 and
capacity ≥ 1, after any finite sequence of confirm/cancel admin actions on
any bookings, every counter satisfies 0 ≤ booked ≤ capacity: the confirm
transition increments booked by the booking's people count only when
booked + people ≤ capacity still holds, and no action ever decrements
booked. -/
theorem C1_capacity_counter_invariant (s : Store)
    (hinit : ∀ p ∈ s.events, p.2.booked = 0 ∧ 1 ≤ p.2.capacity)
    (acts : List AdminAct) : countersOK (runAdminActions s acts) := by
  have h : countersOK s := by
    intro p hp
    obtain ⟨h0, h1⟩ := hinit p hp
    constructor
    · rw [h0]
    · rw [h0]
      exact le_trans (by norm_num) h1
  clear hinit
  induction acts generalizing s with
  | nil => exact h
  | cons a t ih =>
    have hstep := adminAction_preserves_countersOK s a.action a.bookingId
      a.chatId a.messageId h
    have hfold : runAdminActions s (a :: t) =
        runAdminActions
          (applyWrites s (adminBookingAction s a.action a.bookingId a.chatId a.messageId).1)
          t := rfl
    rw [hfold]
    exact ih _ hstep

/-- Witness scenario for C1: a capacity-3 event, a 2-person and a 39-person
booking, with a confirm, an over-capacity confirm attempt, a cancel and a
re-confirm attempt. -/
def c1Booking1 : Booking :=
  { id := "b1", type := "ny_event", chatId := 11, status := "new",
    nyEventId := some "ny-03", createdAt := 0, people := 2, data := {} }

/-- Second booking of the C1 witness scenario. -/
def c1Booking2 : Booking :=
  { id := "b2", type := "ny_event", chatId := 12, status := "new",
    nyEventId := some "ny-03", createdAt := 0, people := 39, data := {} }

/-- Initial store of the C1 witness scenario. -/
def c1Store : Store :=
  { bookings := [("booking:b1", c1Booking1), ("booking:b2", c1Booking2)],
    events := [("event:ny-03", ⟨3, 0⟩)] }

/-- Action sequence of the C1 witness scenario. -/
def c1Acts : List AdminAct :=
  [ ⟨"confirm", "b1", some 1, some 2⟩,
    ⟨"confirm", "b2", some 1, some 3⟩,
    ⟨"cancel", "b1", some 1, some 2⟩,
    ⟨"confirm", "b1", some 1, some 2⟩ ]

/-- Witness for C1 at a concrete store and action sequence. -/
theorem C1_capacity_counter_invariant_witness :
    countersOK (runAdminActions c1Store c1Acts) :=
  C1_capacity_counter_invariant c1Store (by decide) c1Acts

/-- C9: a callback action (confirm, cancel or events summary — indeed any
callback payload) from an identity that is not the configured operator is
answered with the permission-denied notice and nothing else: no booking, no
CapacityCounter and no session is written, and no message is sent to any
requester. -/
theorem C9_unauthorized_callback_no_state_change (s : Store)
    (adminUserId : Option String) (fromId : Option String) (cbData : String)
    (msgChatId msgMessageId : Option Nat)
    (h : isAdminUserId adminUserId (jsStringOfOpt fromId) = false) :
    handleCallbackQuery s adminUserId fromId cbData msgChatId msgMessageId =
      ([], [Effect.answerCallback "Недостаточно прав."]) ∧
    applyWrites s
      (handleCallbackQuery s adminUserId fromId cbData msgChatId msgMessageId).1 = s := by
  have hmain : handleCallbackQuery s adminUserId fromId cbData msgChatId msgMessageId =
      ([], [Effect.answerCallback "Недостаточно прав."]) := by
    unfold handleCallbackQuery
    rw [h]
    simp
  exact ⟨hmain, by rw [hmain]; rfl⟩

/-- Witness for C9: a non-admin identity 99 sends confirm:b1 against the C1
scenario store with operator 42 configured; the call is denied and the store
is untouched. -/
theorem C9_unauthorized_callback_no_state_change_witness :
    handleCallbackQuery c1Store (some "42") (some "99") "confirm:b1" (some 1) (some 2) =
      ([], [Effect.answerCallback "Недостаточно прав."]) ∧
    applyWrites c1Store
      (handleCallbackQuery c1Store (some "42") (some "99") "confirm:b1" (some 1) (some 2)).1 =
      c1Store :=
  C9_unauthorized_callback_no_state_change c1Store (some "42") (some "99")
    "confirm:b1" (some 1) (some 2) (by decide)

/-- C10: the cancel action never touches any CapacityCounter — the events
namespace is unchanged by every cancel invocation — and on a confirmed
booking it sets the status to cancelled and persists the booking record, so
seats reserved at confirm time are never released. -/
theorem C10_cancel_frame (s : Store) (bid : String) (ch mi : Option Nat) :
    (applyWrites s (adminBookingAction s "cancel" bid ch mi).1).events = s.events ∧
    (∀ b : Booking, getBookingS s bid = some b → b.status = "confirmed" →
      b.id = bid → bid ≠ "" →
      getBookingS (applyWrites s (adminBookingAction s "cancel" bid ch mi).1) bid =
        some { b with status := "cancelled" }) := by
  constructor
  · rcases hB : getBookingS s bid with _ | b
    · simp [adminBookingAction, hB, applyWrites]
    · by_cases hs : b.status = "cancelled"
      · simp [adminBookingAction, hB, hs, applyWrites]
      · by_cases hid : b.id = ""
        · simp [adminBookingAction, hB, hs, hid, saveBookingW, applyWrites]
        · simp [adminBookingAction, hB, hs, hid, saveBookingW, applyWrites, applyWrite]
  · intro b hB hconf hid hne
    have hs : ¬b.status = "cancelled" := by
      rw [hconf]
      decide
    have hbid : ¬b.id = "" := by
      rw [hid]
      exact hne
    have hws : (adminBookingAction s "cancel" bid ch mi).1 =
        [StoreWrite.putBooking (bookingKey bid) { b with status := "cancelled" }] := by
      simp [adminBookingAction, hB, hs, hbid, saveBookingW, hid, hne]
    rw [hws]
    simp [applyWrites, applyWrite, getBookingS, alookup_ainsert_self]

/-- Witness for C10: cancelling the confirmed 2-person booking of a capacity
store leaves the counter at booked = 2 and persists the cancelled record. -/
def c10Booking : Booking :=
  { id := "b1", type := "ny_event", chatId := 11, status := "confirmed",
    nyEventId := some "ny-03", createdAt := 0, people := 2, data := {} }

/-- Store of the C10 witness scenario. -/
def c10Store : Store :=
  { bookings := [("booking:b1", c10Booking)],
    events := [("event:ny-03", ⟨40, 2⟩)] }

/-- Witness for C10 at a concrete confirmed booking. -/
theorem C10_cancel_frame_witness :
    (applyWrites c10Store (adminBookingAction c10Store "cancel" "b1" (some 1) (some 2)).1).events =
      c10Store.events ∧
    getBookingS (applyWrites c10Store (adminBookingAction c10Store "cancel" "b1" (some 1) (some 2)).1)
        "b1" = some { c10Booking with status := "cancelled" } :=
  ⟨(C10_cancel_frame c10Store "b1" (some 1) (some 2)).1,
   (C10_cancel_frame c10Store "b1" (some 1) (some 2)).2 c10Booking (by decide) (by decide)
     (by decide) (by decide)⟩

/-- Confirm on an already-confirmed booking is an early return: no writes,
only the "already confirmed" notice (worker.js lines 824-827). -/
theorem confirm_already_confirmed (s : Store) (bid : String)
    (ch mi : Option Nat) (b : Booking) (h1 : getBookingS s bid = some b)
    (h2 : b.status = "confirmed") :
    adminBookingAction s "confirm" bid ch mi =
      ([], [Effect.answerCallback "Заявка уже подтверждена."]) := by
  unfold adminBookingAction
  rw [h1]
  simp [h2]

/-- Cancel on an already-cancelled booking is an early return: no writes,
only the "already cancelled" notice (worker.js lines 885-888). -/
theorem cancel_already_cancelled (s : Store) (bid : String)
    (ch mi : Option Nat) (b : Booking) (h1 : getBookingS s bid = some b)
    (h2 : b.status = "cancelled") :
    adminBookingAction s "cancel" bid ch mi =
      ([], [Effect.answerCallback "Заявка уже отклонена."]) := by
  unfold adminBookingAction
  rw [h1]
  simp [h2]

/-- C3: confirming the same booking id twice in sequence is idempotent
whenever the first confirm left the booking confirmed: the second call
performs no KV write at all (no counter mutation, no booking write), reports
"already confirmed" to the operator, and leaves the store exactly as it was
after the first call. -/
theorem C3_confirm_twice_idempotent (s : Store) (bid : String)
    (ch mi ch2 mi2 : Option Nat) (b : Booking)
    (h1 : getBookingS (applyWrites s (adminBookingAction s "confirm" bid ch mi).1) bid =
      some b)
    (h2 : b.status = "confirmed") :
    adminBookingAction (applyWrites s (adminBookingAction s "confirm" bid ch mi).1)
        "confirm" bid ch2 mi2 =
      ([], [Effect.answerCallback "Заявка уже подтверждена."]) ∧
    applyWrites (applyWrites s (adminBookingAction s "confirm" bid ch mi).1)
        (adminBookingAction (applyWrites s (adminBookingAction s "confirm" bid ch mi).1)
          "confirm" bid ch2 mi2).1 =
      applyWrites s (adminBookingAction s "confirm" bid ch mi).1 := by
  have hmain := confirm_already_confirmed
    (applyWrites s (adminBookingAction s "confirm" bid ch mi).1) bid ch2 mi2 b h1 h2
  exact ⟨hmain, by rw [hmain]; rfl⟩

/-- Witness scenario for C3: an unconstrained excursion booking that the
first confirm marks confirmed. -/
def c3Booking : Booking :=
  { id := "c3", type := "excursion", chatId := 21, status := "new",
    nyEventId := none, createdAt := 0, people := 2, data := {} }

/-- Store of the C3 witness scenario. -/
def c3Store : Store := { bookings := [("booking:c3", c3Booking)], events := [] }

/-- Witness for C3 at a concrete store where the first confirm succeeded. -/
theorem C3_confirm_twice_idempotent_witness :
    adminBookingAction (applyWrites c3Store (adminBookingAction c3Store "confirm" "c3" (some 1) (some 2)).1)
        "confirm" "c3" (some 1) (some 3) =
      ([], [Effect.answerCallback "Заявка уже подтверждена."]) ∧
    applyWrites (applyWrites c3Store (adminBookingAction c3Store "confirm" "c3" (some 1) (some 2)).1)
        (adminBookingAction (applyWrites c3Store (adminBookingAction c3Store "confirm" "c3" (some 1) (some 2)).1)
          "confirm" "c3" (some 1) (some 3)).1 =
      applyWrites c3Store (adminBookingAction c3Store "confirm" "c3" (some 1) (some 2)).1 :=
  C3_confirm_twice_idempotent c3Store "c3" (some 1) (some 2) (some 1) (some 3)
    { c3Booking with status := "confirmed" } (by decide) (by decide)

/-- Cancelled booking used by the C2 scenario. -/
def c2Booking : Booking :=
  { id := "b1", type := "excursion", chatId := 31, status := "cancelled",
    nyEventId := none, createdAt := 0, people := 1, data := {} }

/-- Confirmed booking used by the C2 scenario. -/
def c2BookingConf : Booking :=
  { id := "b2", type := "excursion", chatId := 32, status := "confirmed",
    nyEventId := none, createdAt := 0, people := 1, data := {} }

/-- Store of the C2 scenario: one cancelled and one confirmed booking. -/
def c2Store : Store :=
  { bookings := [("booking:b1", c2Booking), ("booking:b2", c2BookingConf)],
    events := [] }

/-- C2 counterexample: confirming an already-cancelled (terminal) booking is
not a no-op — the store changes and the booking comes back as confirmed. -/
theorem C2_terminal_noop_counterexample :
    applyWrites c2Store (adminBookingAction c2Store "confirm" "b1" none none).1 ≠ c2Store ∧
    Option.map Booking.status
      (getBookingS
        (applyWrites c2Store (adminBookingAction c2Store "confirm" "b1" none none).1) "b1") =
      some "confirmed" := by
  constructor
  · decide
  · decide

/-- C2 amended: re-invoking the SAME action on a terminal booking is a no-op
that reports the existing state (confirm on confirmed, cancel on cancelled),
but the opposite action is applied: confirming a cancelled booking re-runs
the confirm transition and persists it as confirmed (shown here for an
unconstrained booking). -/
theorem C2_terminal_same_action_noop (s : Store) (bid : String)
    (ch mi : Option Nat) (b : Booking) (hb : getBookingS s bid = some b) :
    (b.status = "confirmed" →
      adminBookingAction s "confirm" bid ch mi =
        ([], [Effect.answerCallback "Заявка уже подтверждена."])) ∧
    (b.status = "cancelled" →
      adminBookingAction s "cancel" bid ch mi =
        ([], [Effect.answerCallback "Заявка уже отклонена."])) ∧
    (b.status = "cancelled" → capacityEventId b = none → b.id = bid → bid ≠ "" →
      getBookingS (applyWrites s (adminBookingAction s "confirm" bid ch mi).1) bid =
        some { b with status := "confirmed" }) := by
  refine ⟨fun h2 => confirm_already_confirmed s bid ch mi b hb h2,
          fun h2 => cancel_already_cancelled s bid ch mi b hb h2,
          fun h2 he hid hne => ?_⟩
  have hs : ¬b.status = "confirmed" := by
    rw [h2]
    decide
  have hbid : ¬b.id = "" := by
    rw [hid]
    exact hne
  have hws : (adminBookingAction s "confirm" bid ch mi).1 =
      [StoreWrite.putBooking (bookingKey bid) { b with status := "confirmed" }] := by
    simp [adminBookingAction, hb, hs, he, saveBookingW, hbid, hid, hne]
  rw [hws]
  simp [applyWrites, applyWrite, getBookingS, alookup_ainsert_self]

/-- Witness for C2 amended, applying the no-op parts at the confirmed and
cancelled bookings of the C2 store and the cross-action part at the
cancelled one. -/
theorem C2_terminal_same_action_noop_witness :
    adminBookingAction c2Store "confirm" "b2" none none =
      ([], [Effect.answerCallback "Заявка уже подтверждена."]) ∧
    adminBookingAction c2Store "cancel" "b1" none none =
      ([], [Effect.answerCallback "Заявка уже отклонена."]) ∧
    getBookingS (applyWrites c2Store (adminBookingAction c2Store "confirm" "b1" none none).1)
        "b1" = some { c2Booking with status := "confirmed" } :=
  ⟨(C2_terminal_same_action_noop c2Store "b2" none none c2BookingConf (by decide)).1 (by decide),
   (C2_terminal_same_action_noop c2Store "b1" none none c2Booking (by decide)).2.1 (by decide),
   (C2_terminal_same_action_noop c2Store "b1" none none c2Booking (by decide)).2.2
     (by decide) (by decide) (by decide) (by decide)⟩

/-- C4: in the confirm transition of a capacity-bound booking that passes
the people and capacity checks, the incremented CapacityCounter is persisted
strictly before the booking record: at every prefix of the chronological
write list, if the booking is already persisted as confirmed then the
incremented counter is already persisted as well. -/
theorem C4_counter_persisted_before_booking (s : Store) (bid e : String)
    (b : Booking) (ch mi : Option Nat)
    (hb : getBookingS s bid = some b) (hid : b.id = bid) (hne : bid ≠ "")
    (hst : b.status ≠ "confirmed") (he : capacityEventId b = some e)
    (hp : 0 < b.people)
    (hcap : (getEventState s e).2.2.booked + b.people ≤ (getEventState s e).2.2.capacity) :
    ∀ n : Nat,
      Option.map Booking.status
          (getBookingS (applyWrites s (((adminBookingAction s "confirm" bid ch mi).1).take n)) bid) =
        some "confirmed" →
      alookup (applyWrites s (((adminBookingAction s "confirm" bid ch mi).1).take n)).events
          (eventKey e) =
        some ⟨(getEventState s e).2.2.capacity,
              (getEventState s e).2.2.booked + b.people⟩ := by
  have hs : ¬b.status = "confirmed" := hst
  have hbid : ¬b.id = "" := by
    rw [hid]
    exact hne
  have hnp : ¬b.people ≤ 0 := not_le.mpr hp
  have hb1 : alookup s.bookings (bookingKey bid) = some b := hb
  rcases hG : alookup s.events (eventKey e) with _ | st0 <;>
    simp only [getEventState, hG] at hcap ⊢
  · -- counter absent: it is lazily created, then incremented, then the booking saved
    have hcap2 : ¬((40 : Int) < 0 + b.people) := not_lt.mpr hcap
    have hcap3 : ¬((40 : Int) < b.people) := by simpa using hcap2
    have hws : (adminBookingAction s "confirm" bid ch mi).1 =
        [StoreWrite.putEvent (eventKey e) ⟨40, 0⟩,
         StoreWrite.putEvent (eventKey e) ⟨40, b.people⟩,
         StoreWrite.putBooking (bookingKey bid) { b with status := "confirmed" }] := by
      simp [adminBookingAction, hb, hs, he, getEventState, hG, hnp, hcap3,
        saveEventState, saveBookingW, hbid, hid, hne]
    intro n hconf
    rw [hws] at hconf ⊢
    match n with
    | 0 =>
      simp [applyWrites, getBookingS, hb1] at hconf
      exact absurd hconf hs
    | 1 =>
      simp [applyWrites, applyWrite, getBookingS, hb1] at hconf
      exact absurd hconf hs
    | 2 =>
      simp [applyWrites, applyWrite, getBookingS, hb1] at hconf
      exact absurd hconf hs
    | (n + 3) =>
      simp [applyWrites, applyWrite, alookup_ainsert_self]
  · -- counter present: it is incremented, then the booking saved
    have hcap2 : ¬(st0.capacity < st0.booked + b.people) := not_lt.mpr hcap
    have hws : (adminBookingAction s "confirm" bid ch mi).1 =
        [StoreWrite.putEvent (eventKey e) ⟨st0.capacity, st0.booked + b.people⟩,
         StoreWrite.putBooking (bookingKey bid) { b with status := "confirmed" }] := by
      simp [adminBookingAction, hb, hs, he, getEventState, hG, hnp, hcap2,
        saveEventState, saveBookingW, hbid, hid, hne]
    intro n hconf
    rw [hws] at hconf ⊢
    match n with
    | 0 =>
      simp [applyWrites, getBookingS, hb1] at hconf
      exact absurd hconf hs
    | 1 =>
      simp [applyWrites, applyWrite, getBookingS, hb1] at hconf
      exact absurd hconf hs
    | (n + 2) =>
      simp [applyWrites, applyWrite, alookup_ainsert_self]

/-- Booking of the C4 witness scenario. -/
def c4Booking : Booking :=
  { id := "b1", type := "ny_event", chatId := 41, status := "new",
    nyEventId := some "ny-03", createdAt := 0, people := 2, data := {} }

/-- Store of the C4 witness scenario: the counter already holds 5 of 40. -/
def c4Store : Store :=
  { bookings := [("booking:b1", c4Booking)],
    events := [("event:ny-03", ⟨40, 5⟩)] }

/-- Witness for C4 at the full write prefix of a concrete confirm. -/
theorem C4_counter_persisted_before_booking_witness :
    alookup
      (applyWrites c4Store
        (((adminBookingAction c4Store "confirm" "b1" (some 1) (some 2)).1).take 2)).events
      (eventKey "ny-03") = some ⟨40, 7⟩ :=
  C4_counter_persisted_before_booking c4Store "b1" "ny-03" c4Booking (some 1) (some 2)
    (by decide) (by decide) (by decide) (by decide) (by decide) (by decide) (by decide)
    2 (by decide)

/-- C8: every session write goes through setState and stamps
expiresAt = now + 600000 (10 minutes); any stored session whose expiresAt is
strictly in the past when an inbound message is read is deleted and replaced
by the empty idle session before any step logic runs, regardless of the
step it recorded. -/
theorem C8_expired_session_treated_absent (σ : Session) (t now : Nat)
    (h : (setStateS σ t).expiresAt < now) :
    sessionExpiryCheck (setStateS σ t) now = (emptySession, true) ∧
    (setStateS σ t).expiresAt = t + 600000 := by
  have h0 : (setStateS σ t).expiresAt ≠ 0 := by
    simp only [setStateS]
    omega
  constructor
  · unfold sessionExpiryCheck
    rw [if_pos ⟨h0, h⟩]
  · rfl

/-- Witness for C8: a session parked at the ex_contact step, written at time
0, is wiped when read at time 600001. -/
theorem C8_expired_session_treated_absent_witness :
    sessionExpiryCheck (setStateS { step := "ex_contact", name := "Ivan" } 0) 600001 =
      (emptySession, true) ∧
    (setStateS { step := "ex_contact", name := "Ivan" } 0).expiresAt = 0 + 600000 :=
  C8_expired_session_treated_absent { step := "ex_contact", name := "Ivan" } 0 600001
    (by decide)

/-- The handle regex of the code equals the handle pattern as the
specification words it. -/
theorem isValidTelegram_eq_spec (c : String) : isValidTelegram c = specIsHandle c := by
  unfold isValidTelegram specIsHandle
  rcases hd : c.data with _ | ⟨ch, t⟩
  · simp
  · by_cases hch : ch = '@' <;> simp [hch, List.take, List.drop]

/-- The phone check of the code equals the phone pattern as the
specification words it. -/
theorem isValidPhone_eq_spec (c : String) : isValidPhone c = specIsPhone c := by
  have hchar : specPhoneChar = isPhoneChar := rfl
  obtain ⟨l⟩ := c
  unfold isValidPhone isPhoneLike digitsOnly specIsPhone
  rw [hchar]
  rcases l with _ | ⟨ch, t⟩
  · simp
  · simp [List.countP_eq_length_filter, String.ext_iff, Bool.and_assoc]

/-- C5 (amended, first variant): at the first variant's ex_contact step the
trimmed input is accepted — contact stored, booking payload emitted, session
cleared — iff it matches the handle pattern (leading @ plus 4-32 word
characters) or the phone pattern (digits/+/whitespace/parens/hyphens with
10-15 digits); otherwise the handler re-prompts and returns the session
unchanged.  The spec's four examples behave as stated. -/
theorem C5_contact_validation_v1 (s : Session) (chatId : Nat) (text : String) :
    (((exContactV1 s chatId text).2.isSome = true) ↔
      (specIsHandle (jsTrim text) = true ∨ specIsPhone (jsTrim text) = true)) ∧
    ((exContactV1 s chatId "+7 999 123-45-67").2.isSome = true) ∧
    ((exContactV1 s chatId "@john_doe").2.isSome = true) ∧
    (exContactV1 s chatId "12345" = (s, none)) ∧
    (exContactV1 s chatId "@a" = (s, none)) := by
  refine ⟨?_, ?_, ?_, ?_, ?_⟩
  · unfold exContactV1
    dsimp only
    have he : (isValidTelegram (jsTrim text) || isValidPhone (jsTrim text)) =
        (specIsHandle (jsTrim text) || specIsPhone (jsTrim text)) := by
      rw [isValidTelegram_eq_spec, isValidPhone_eq_spec]
    rw [he]
    by_cases hs : (specIsHandle (jsTrim text) || specIsPhone (jsTrim text)) = true
    · rw [if_neg (by simp [hs])]
      simp [Bool.or_eq_true] at hs
      simpa using hs
    · rw [if_pos (by simp [Bool.not_eq_true] at hs ⊢; simp [hs])]
      simp [Bool.or_eq_true] at hs
      simpa using hs
  · unfold exContactV1
    dsimp only
    rw [if_neg (by decide)]
    rfl
  · unfold exContactV1
    dsimp only
    rw [if_neg (by decide)]
    rfl
  · unfold exContactV1
    dsimp only
    rw [if_pos (by decide)]
  · unfold exContactV1
    dsimp only
    rw [if_pos (by decide)]

/-- C5 counterexample: the second variant's ex_contact handler accepts the
input "12345" (and any other string) although it matches neither pattern, so
the acceptance-iff-pattern claim fails on that handler. -/
theorem C5_contact_validation_counterexample :
    ((exContactV2 emptySession 1 "12345").2.isSome = true) ∧
    specIsHandle "12345" = false ∧ specIsPhone "12345" = false ∧
    isValidTelegram "12345" = false ∧ isValidPhone "12345" = false := by
  refine ⟨by decide, by decide, by decide, by decide, by decide⟩

/-- C6 (amended, first variant): the first variant's ex_people step accepts
exactly the button labels, normalizes "более 11" to "11+" and "6–10" to
"6-10", stores numerals verbatim, advances to ex_contact on acceptance, and
on any other input (such as "7") returns the session unchanged with a
re-prompt. -/
theorem C6_people_validation_v1 (s : Session) (text : String) (now : Nat) :
    (((exPeopleV1 s text now).2 = true) ↔ text ∈ exPeopleAllowed) ∧
    (text ∉ exPeopleAllowed → exPeopleV1 s text now = (s, false)) ∧
    ((exPeopleV1 s "более 11" now).1.people = "11+") ∧
    ((exPeopleV1 s "6–10" now).1.people = "6-10") ∧
    (∀ numText ∈ (["1", "2", "3", "4", "5", "6"] : List String),
      (exPeopleV1 s numText now).1.people = numText) ∧
    ((exPeopleV1 s text now).2 = true → (exPeopleV1 s text now).1.step = "ex_contact") ∧
    (exPeopleV1 s "7" now = (s, false)) := by
  refine ⟨?_, ?_, ?_, ?_, ?_, ?_, ?_⟩
  · unfold exPeopleV1
    by_cases hm : text ∈ exPeopleAllowed
    · simp [hm]
    · simp [hm]
  · intro hm
    unfold exPeopleV1
    simp [hm]
  · unfold exPeopleV1
    rw [if_pos (by decide)]
    rfl
  · unfold exPeopleV1
    rw [if_pos (by decide)]
    rfl
  · intro numText hnum
    fin_cases hnum <;> (unfold exPeopleV1; rw [if_pos (by decide)]; rfl)
  · unfold exPeopleV1
    by_cases hm : text ∈ exPeopleAllowed
    · simp [hm, setStateS]
    · simp [hm]
  · unfold exPeopleV1
    rw [if_neg (by decide)]

/-- C6 counterexample: the second variant's ex_people step accepts the free
text "7", stores it verbatim and advances the step, although "7" is not an
allowed label, so the reject-with-unchanged-session claim fails on that
handler. -/
theorem C6_people_validation_counterexample :
    ((exPeopleV2 emptySession "7" 0).2 = true) ∧
    (exPeopleV2 emptySession "7" 0).1.step = "ex_contact" ∧
    (exPeopleV2 emptySession "7" 0).1.people = "7" ∧
    "7" ∉ exPeopleAllowed := by
  refine ⟨by decide, by decide, by decide, by decide⟩

/-- First booking payload of the C7 collision scenario. -/
def c7InputA : BookingInput :=
  { type := "excursion", chatId := 71, people := 2,
    data := { name := some "Anna", date := some "05.01", time := some "11:30",
              people := some "2", contact := some "@anna_q" } }

/-- Second booking payload of the C7 collision scenario: a different request
(other name, party size and contact) by the same requester for the same
date, created within the same millisecond. -/
def c7InputB : BookingInput :=
  { type := "excursion", chatId := 71, people := 3,
    data := { name := some "Boris", date := some "05.01", time := some "15:30",
              people := some "3", contact := some "@boris_q" } }

/-- C7: generateBookingId derives the id purely from the date answer, the
current UTC day and Date.now(), so two distinct bookings created by the same
requester for the same date within the same millisecond receive the SAME id,
and the second createBooking overwrites the first record in the store — the
uniqueness claim fails. -/
theorem C7_booking_id_collision :
    c7InputA ≠ c7InputB ∧
    (createBooking { bookings := [], events := [] } c7InputA "2026-01-02" 1767312000000).2.id =
      (createBooking { bookings := [], events := [] } c7InputB "2026-01-02" 1767312000000).2.id ∧
    (createBooking
        (createBooking { bookings := [], events := [] } c7InputA "2026-01-02" 1767312000000).1
        c7InputB "2026-01-02" 1767312000000).1.bookings.length = 1 := by
  refine ⟨by decide, by decide, by decide⟩

/-- Witness for C6 at concrete inputs: the free text "17" is rejected with
the session unchanged, and the accepted numeral "3" is stored verbatim with
the step advanced. -/
theorem C6_people_validation_v1_witness :
    exPeopleV1 emptySession "17" 0 = (emptySession, false) ∧
    (exPeopleV1 emptySession "3" 0).1.people = "3" ∧
    (exPeopleV1 emptySession "3" 0).1.step = "ex_contact" :=
  ⟨(C6_people_validation_v1 emptySession "17" 0).2.1 (by decide),
   (C6_people_validation_v1 emptySession "3" 0).2.2.2.2.1 "3" (by decide),
   (C6_people_validation_v1 emptySession "3" 0).2.2.2.2.2.1 (by decide)⟩
